import Mathlib

/-!
Verification of the Orderful API client (src/orderful/api.py).

The client is embedded shallowly: Python JSON-like values become the
inductive type `PyVal`; each public method of `OrderfulAPI` becomes a Lean
function that, given the client state, the method arguments and the HTTP
response the server would send, returns the (unchanged) client state, the
outgoing `Request` the method builds, and the method result as an
`Except CallError` value mirroring Python exception propagation
(`raise_for_status`, `KeyError`, JSON decode failure).
-/

/-- Python JSON-like values, as they appear in query parameters and JSON
request/response bodies. -/
inductive PyVal where
  | str (s : String)
  | int (n : Int)
  | bool (b : Bool)
  | list (xs : List PyVal)
  | dict (kvs : List (String × PyVal))
  | none

/-- Python truthiness: non-empty string, non-zero int, True, non-empty
list, non-empty dict. -/
def truthy : PyVal → Bool
  | .str s => !s.isEmpty
  | .int n => n != 0
  | .bool b => b
  | .list xs => !xs.isEmpty
  | .dict kvs => !kvs.isEmpty
  | .none => false

/-- Association-list lookup, mirroring Python dict subscripting on an
insertion-ordered dict whose keys are unique. -/
def dictGet (d : List (String × PyVal)) (k : String) : Option PyVal :=
  match d with
  | [] => Option.none
  | (k', v) :: rest => if k = k' then some v else dictGet rest k

/-- Python dict.update with a single key: replace the value if the key is
present, otherwise append the binding (insertion order preserved). -/
def dictUpdate (d : List (String × PyVal)) (k : String) (v : PyVal) :
    List (String × PyVal) :=
  match d with
  | [] => [(k, v)]
  | (k', v') :: rest =>
    if k = k' then (k', v) :: rest else (k', v') :: dictUpdate rest k v

/-- Inclusion policy used throughout the client: `if arg: params.update(key=arg)`. -/
def optUpdate (k : String) (v : PyVal) (d : List (String × PyVal)) :
    List (String × PyVal) :=
  if truthy v then dictUpdate d k v else d

mutual

/-- Python structural equality on JSON-like values (no int/bool coercion is
needed by the client, which only compares the stream against a string). -/
def PyVal.beq : PyVal → PyVal → Bool
  | .str a, .str b => a == b
  | .int a, .int b => a == b
  | .bool a, .bool b => a == b
  | .list as, .list bs => PyVal.listBeq as bs
  | .dict as, .dict bs => PyVal.dictBeq as bs
  | .none, .none => true
  | _, _ => false

/-- Elementwise equality of Python lists. -/
def PyVal.listBeq : List PyVal → List PyVal → Bool
  | [], [] => true
  | a :: as, b :: bs => PyVal.beq a b && PyVal.listBeq as bs
  | _, _ => false

/-- Pairwise equality of insertion-ordered dicts. -/
def PyVal.dictBeq : List (String × PyVal) → List (String × PyVal) → Bool
  | [], [] => true
  | (k, a) :: as, (j, b) :: bs =>
    k == j && PyVal.beq a b && PyVal.dictBeq as bs
  | _, _ => false

end

/-- HTTP method of an outgoing request. -/
inductive Method where
  | GET
  | POST
  deriving DecidableEq

/-- An outgoing HTTP request as the client builds it: method, full URL,
query parameters, optional JSON body (a dict), and per-call extra headers
(used only by convert_data). -/
structure Request where
  method : Method
  url : String
  params : List (String × PyVal)
  jsonBody : Option (List (String × PyVal))
  headers : List (String × PyVal)

/-- A simulated HTTP response: status code, the JSON value its body parses
to (if it parses), and its raw byte content. -/
structure Response where
  status : Nat
  jsonBody : Option PyVal
  content : List Nat

/-- Exceptions a client call can propagate: requests' HTTPError from
raise_for_status (carrying the response), a JSON decode failure from
response.json(), a KeyError from subscripting the parsed body, or a
TypeError from subscripting a non-dict. -/
inductive CallError where
  | httpError (resp : Response)
  | jsonDecodeError
  | keyError (k : String)
  | typeError

/-- Translation of requests' Response.raise_for_status: a 4xx or 5xx
status raises an HTTPError carrying the response. -/
def raiseForStatus (r : Response) : Except CallError Unit :=
  if 400 ≤ r.status ∧ r.status < 600 then .error (.httpError r) else .ok ()

/-- Translation of Response.json(): the parsed body, raising when the body
is not valid JSON. -/
def Response.json (r : Response) : Except CallError PyVal :=
  match r.jsonBody with
  | some v => .ok v
  | Option.none => .error .jsonDecodeError

/-- Python subscripting v[k]: KeyError when a dict lacks the key,
TypeError when the value is not a dict. -/
def pyGetItem (v : PyVal) (k : String) : Except CallError PyVal :=
  match v with
  | .dict d =>
    match dictGet d k with
    | some x => .ok x
    | Option.none => .error (.keyError k)
  | _ => .error .typeError

/-- Client state: the configuration stored by OrderfulAPI.__init__ and the
header set attached to the requests.Session. -/
structure OrderfulAPI where
  stream : PyVal
  orderful_api_key : PyVal
  api_headers : List (String × PyVal)
  session_headers : List (String × PyVal)

/-- Translation of OrderfulAPI.__init__: store stream and key, derive the
fixed header dict, and install it on the session. -/
def OrderfulAPI.init (stream orderful_api_key : PyVal) : OrderfulAPI :=
  let api_headers := [
    ("accept", PyVal.str "application/json"),
    ("content-type", PyVal.str "application/json"),
    ("orderful-api-key", orderful_api_key)]
  ⟨stream, orderful_api_key, api_headers, api_headers⟩

/-- Translation of OrderfulAPI.get_base_url. -/
def OrderfulAPI.get_base_url (_c : OrderfulAPI) : String :=
  "https://api.orderful.com/v3"

/-- Translation of OrderfulAPI.is_enabled: Python `stream and key` returns
stream when stream is falsy and the key otherwise. -/
def OrderfulAPI.is_enabled (c : OrderfulAPI) : PyVal :=
  if truthy c.stream then c.orderful_api_key else c.stream

/-- Translation of OrderfulAPI.is_live_stream: `self.stream == "LIVE"`. -/
def OrderfulAPI.is_live_stream (c : OrderfulAPI) : Bool :=
  PyVal.beq c.stream (PyVal.str "LIVE")

/-- Translation of OrderfulAPI.get_transactions_from_poller_bucket. -/
def OrderfulAPI.get_transactions_from_poller_bucket (c : OrderfulAPI)
    (bucket_id : String) (limit : PyVal) (resp : Response) :
    OrderfulAPI × Request × Except CallError PyVal :=
  let baseurl := c.get_base_url
  let url := baseurl ++ "/polling-buckets/" ++ bucket_id
  let params := optUpdate "limit" limit []
  (c, ⟨.GET, url, params, Option.none, []⟩,
    raiseForStatus resp >>= fun _ => resp.json)

/-- Translation of OrderfulAPI.list_relationships. -/
def OrderfulAPI.list_relationships (c : OrderfulAPI) (bucket_id : String)
    (auto_send limit prev_cursor next_cursor : PyVal) (resp : Response) :
    OrderfulAPI × Request × Except CallError PyVal :=
  let baseurl := c.get_base_url
  let url := baseurl ++ "/relationships/" ++ bucket_id
  let params :=
    [] |> optUpdate "auto_send" auto_send
       |> optUpdate "limit" limit
       |> optUpdate "prev_cursor" prev_cursor
       |> optUpdate "next_cursor" next_cursor
  (c, ⟨.GET, url, params, Option.none, []⟩,
    raiseForStatus resp >>= fun _ => resp.json)

/-- Translation of OrderfulAPI.get_organization_details. -/
def OrderfulAPI.get_organization_details (c : OrderfulAPI)
    (resp : Response) : OrderfulAPI × Request × Except CallError PyVal :=
  let baseurl := c.get_base_url
  let url := baseurl ++ "/organizations/me"
  (c, ⟨.GET, url, [], Option.none, []⟩,
    raiseForStatus resp >>= fun _ => resp.json)

/-- Translation of OrderfulAPI.convert_data: the per-call headers swap the
content-type and accept values. -/
def OrderfulAPI.convert_data (c : OrderfulAPI)
    (origin_content destination_content : PyVal) (resp : Response) :
    OrderfulAPI × Request × Except CallError PyVal :=
  let baseurl := c.get_base_url
  let url := baseurl ++ "/convert"
  let headers := [("Content-Type", origin_content),
    ("Accept", destination_content)]
  (c, ⟨.POST, url, [], Option.none, headers⟩,
    raiseForStatus resp >>= fun _ => resp.json)

/-- Translation of OrderfulAPI.create_transaction. -/
def OrderfulAPI.create_transaction (c : OrderfulAPI)
    (orderful_type message sender_isa_id receiver_isa_id : PyVal)
    (resp : Response) :
    OrderfulAPI × Request × Except CallError PyVal :=
  let baseurl := c.get_base_url
  let url := baseurl ++ "/transactions"
  let payload := [
    ("type", PyVal.dict [("name", orderful_type)]),
    ("stream", c.stream),
    ("message", message),
    ("sender", PyVal.dict [("isaId", sender_isa_id)]),
    ("receiver", PyVal.dict [("isaId", receiver_isa_id)])]
  (c, ⟨.POST, url, [], some payload, []⟩,
    raiseForStatus resp >>= fun _ =>
    resp.json >>= fun data =>
    pyGetItem data "id")

/-- Translation of the params construction in OrderfulAPI.list_transactions:
each truthy snake_case argument is added under its camelCase key, in
source order. -/
def list_transactions_params
    (prev_cursor next_cursor created_at business_numbers transaction_type
      validation_status delivery_status acknowledgment_status sender_isa_id
      receiver_isa_id reference_identifier
      sender_interchange_reference_identifier
      sender_group_reference_identifier
      sender_transaction_reference_identifier
      receiver_interchange_reference_identifier
      receiver_group_reference_identifier
      receiver_transaction_reference_identifier : PyVal) :
    List (String × PyVal) :=
  [] |> optUpdate "prevCursor" prev_cursor
     |> optUpdate "nextCursor" next_cursor
     |> optUpdate "createdAt" created_at
     |> optUpdate "businessNumbers" business_numbers
     |> optUpdate "transactionType" transaction_type
     |> optUpdate "validationStatus" validation_status
     |> optUpdate "deliveryStatus" delivery_status
     |> optUpdate "acknowledgmentStatus" acknowledgment_status
     |> optUpdate "senderIsaId" sender_isa_id
     |> optUpdate "receiverIsaId" receiver_isa_id
     |> optUpdate "referenceIdentifier" reference_identifier
     |> optUpdate "senderInterchangeReferenceIdentifier"
          sender_interchange_reference_identifier
     |> optUpdate "senderGroupReferenceIdentifier"
          sender_group_reference_identifier
     |> optUpdate "senderTransactionReferenceIdentifier"
          sender_transaction_reference_identifier
     |> optUpdate "receiverInterchangeReferenceIdentifier"
          receiver_interchange_reference_identifier
     |> optUpdate "receiverGroupReferenceIdentifier"
          receiver_group_reference_identifier
     |> optUpdate "receiverTransactionReferenceIdentifier"
          receiver_transaction_reference_identifier

/-- Translation of OrderfulAPI.list_transactions: GET /transactions with
the filter params, then extract (metadata, data) from the body. -/
def OrderfulAPI.list_transactions (c : OrderfulAPI)
    (prev_cursor next_cursor created_at business_numbers transaction_type
      validation_status delivery_status acknowledgment_status sender_isa_id
      receiver_isa_id reference_identifier
      sender_interchange_reference_identifier
      sender_group_reference_identifier
      sender_transaction_reference_identifier
      receiver_interchange_reference_identifier
      receiver_group_reference_identifier
      receiver_transaction_reference_identifier : PyVal)
    (resp : Response) :
    OrderfulAPI × Request × Except CallError (PyVal × PyVal) :=
  let params := list_transactions_params prev_cursor next_cursor created_at
    business_numbers transaction_type validation_status delivery_status
    acknowledgment_status sender_isa_id receiver_isa_id
    reference_identifier sender_interchange_reference_identifier
    sender_group_reference_identifier
    sender_transaction_reference_identifier
    receiver_interchange_reference_identifier
    receiver_group_reference_identifier
    receiver_transaction_reference_identifier
  let baseurl := c.get_base_url
  let url := baseurl ++ "/transactions"
  (c, ⟨.GET, url, params, Option.none, []⟩,
    raiseForStatus resp >>= fun _ =>
    resp.json >>= fun data =>
    pyGetItem data "metadata" >>= fun metadata =>
    pyGetItem data "data" >>= fun transactions =>
    pure (metadata, transactions))

/-- Translation of OrderfulAPI.get_transaction: a truthy include_message
adds the fixed query pair expand=message. -/
def OrderfulAPI.get_transaction (c : OrderfulAPI) (transaction_id : String)
    (include_message : PyVal) (resp : Response) :
    OrderfulAPI × Request × Except CallError PyVal :=
  let baseurl := c.get_base_url
  let url := baseurl ++ "/transactions/" ++ transaction_id
  let params :=
    if truthy include_message then
      dictUpdate [] "expand" (PyVal.str "message")
    else []
  (c, ⟨.GET, url, params, Option.none, []⟩,
    raiseForStatus resp >>= fun _ => resp.json)

/-- Translation of OrderfulAPI.get_transaction_message. -/
def OrderfulAPI.get_transaction_message (c : OrderfulAPI)
    (transaction_id : String) (resp : Response) :
    OrderfulAPI × Request × Except CallError PyVal :=
  let baseurl := c.get_base_url
  let url := baseurl ++ "/transactions/" ++ transaction_id ++ "/message"
  (c, ⟨.GET, url, [], Option.none, []⟩,
    raiseForStatus resp >>= fun _ => resp.json)

/-- Translation of OrderfulAPI.create_acknowledgment: POST a body holding
status and, when truthy, errors; no value is returned. -/
def OrderfulAPI.create_acknowledgment (c : OrderfulAPI)
    (transaction_id : String) (status errors : PyVal) (resp : Response) :
    OrderfulAPI × Request × Except CallError Unit :=
  let baseurl := c.get_base_url
  let url := baseurl ++ "/transactions/" ++ transaction_id ++
    "/acknowledgments"
  let payload := optUpdate "errors" errors [("status", status)]
  (c, ⟨.POST, url, [], some payload, []⟩, raiseForStatus resp)

/-- Translation of OrderfulAPI.get_acknowledgment. -/
def OrderfulAPI.get_acknowledgment (c : OrderfulAPI)
    (transaction_id : String) (resp : Response) :
    OrderfulAPI × Request × Except CallError PyVal :=
  let baseurl := c.get_base_url
  let url := baseurl ++ "/transactions/" ++ transaction_id ++
    "/acknowledgment"
  (c, ⟨.GET, url, [], Option.none, []⟩,
    raiseForStatus resp >>= fun _ => resp.json)

/-- Translation of OrderfulAPI.get_attachment. -/
def OrderfulAPI.get_attachment (c : OrderfulAPI) (attachment_id : String)
    (resp : Response) : OrderfulAPI × Request × Except CallError PyVal :=
  let baseurl := c.get_base_url
  let url := baseurl ++ "/attachments/" ++ attachment_id
  (c, ⟨.GET, url, [], Option.none, []⟩,
    raiseForStatus resp >>= fun _ => resp.json)

/-- Translation of OrderfulAPI.get_attachment_content: returns the raw
response.content bytes, with no JSON parsing. -/
def OrderfulAPI.get_attachment_content (c : OrderfulAPI)
    (attachment_id : String) (resp : Response) :
    OrderfulAPI × Request × Except CallError (List Nat) :=
  let baseurl := c.get_base_url
  let url := baseurl ++ "/attachments/" ++ attachment_id ++ "/content"
  (c, ⟨.GET, url, [], Option.none, []⟩,
    raiseForStatus resp >>= fun _ => pure resp.content)

/-- Translation of OrderfulAPI.approve_delivery. -/
def OrderfulAPI.approve_delivery (c : OrderfulAPI) (delivery_id : String)
    (note : PyVal) (resp : Response) :
    OrderfulAPI × Request × Except CallError Unit :=
  let baseurl := c.get_base_url
  let url := baseurl ++ "/deliveries/" ++ delivery_id ++ "/approve"
  let payload := optUpdate "note" note []
  (c, ⟨.POST, url, [], some payload, []⟩, raiseForStatus resp)

/-- Translation of OrderfulAPI.fail_delivery. -/
def OrderfulAPI.fail_delivery (c : OrderfulAPI) (delivery_id : String)
    (note : PyVal) (resp : Response) :
    OrderfulAPI × Request × Except CallError Unit :=
  let baseurl := c.get_base_url
  let url := baseurl ++ "/deliveries/" ++ delivery_id ++ "/fail"
  let payload := optUpdate "note" note []
  (c, ⟨.POST, url, [], some payload, []⟩, raiseForStatus resp)

/-- Translation of OrderfulAPI.get_delivery. -/
def OrderfulAPI.get_delivery (c : OrderfulAPI) (delivery_id : String)
    (resp : Response) : OrderfulAPI × Request × Except CallError PyVal :=
  let baseurl := c.get_base_url
  let url := baseurl ++ "/deliveries/" ++ delivery_id
  (c, ⟨.GET, url, [], Option.none, []⟩,
    raiseForStatus resp >>= fun _ => resp.json)

/-- Translation of OrderfulAPI.generate_label: the kwargs dict is sent as
the JSON body unchanged. -/
def OrderfulAPI.generate_label (c : OrderfulAPI) (label_type : String)
    (kwargs : List (String × PyVal)) (resp : Response) :
    OrderfulAPI × Request × Except CallError PyVal :=
  let baseurl := c.get_base_url
  let url := baseurl ++ "/labels/" ++ label_type
  (c, ⟨.POST, url, [], some kwargs, []⟩,
    raiseForStatus resp >>= fun _ => resp.json)

/-! Helper lemmas about dict lookup and equality. -/

theorem dictGet_dictUpdate (d : List (String × PyVal)) (k k' : String)
    (v : PyVal) :
    dictGet (dictUpdate d k' v) k =
      if k = k' then some v else dictGet d k := by
  induction d with
  | nil => simp [dictUpdate, dictGet]
  | cons hd tl ih =>
    obtain ⟨a, b⟩ := hd
    by_cases hka : k' = a
    · subst hka
      by_cases hk : k = k' <;> simp [dictUpdate, dictGet, hk]
    · by_cases hk : k = a
      · subst hk
        have : ¬ k = k' := fun h => hka h.symm
        simp [dictUpdate, dictGet, hka, this]
      · simp [dictUpdate, dictGet, hka, hk, ih]

theorem dictGet_optUpdate (d : List (String × PyVal)) (k k' : String)
    (v : PyVal) :
    dictGet (optUpdate k' v d) k =
      if k = k' then (if truthy v then some v else dictGet d k)
      else dictGet d k := by
  unfold optUpdate
  by_cases hk : k = k' <;> cases htv : truthy v <;>
    simp [dictGet_dictUpdate, hk, htv]

theorem pyBeq_str_iff (v : PyVal) (s : String) :
    PyVal.beq v (PyVal.str s) = true ↔ v = PyVal.str s := by
  cases v <;> simp [PyVal.beq]

/-- C6: is_enabled is falsy exactly when the stream or the api key is
falsy (Python `a and b` is truthy iff both operands are), and
is_live_stream holds exactly when the stream is the string "LIVE". -/
theorem c6_is_enabled_is_live_stream :
    (∀ c : OrderfulAPI,
      truthy c.is_enabled = (truthy c.stream && truthy c.orderful_api_key)) ∧
    (∀ c : OrderfulAPI,
      c.is_live_stream = true ↔ c.stream = PyVal.str "LIVE") := by
  constructor
  · intro c
    unfold OrderfulAPI.is_enabled
    cases h : truthy c.stream <;> simp [h]
  · intro c
    unfold OrderfulAPI.is_live_stream
    exact pyBeq_str_iff c.stream "LIVE"

/-- C7: on a success status, get_attachment_content returns the raw byte
content of the response, performing no JSON parsing. -/
theorem c7_attachment_content_raw (c : OrderfulAPI) (attachment_id : String)
    (resp : Response) (h : resp.status < 400) :
    (c.get_attachment_content attachment_id resp).2.2 =
      Except.ok resp.content := by
  have hns : ¬ (400 ≤ resp.status ∧ resp.status < 600) := by omega
  simp [OrderfulAPI.get_attachment_content, raiseForStatus, hns,
    Bind.bind, Except.bind, Pure.pure, Except.pure]

/-- C7 witness: a concrete success response whose bytes come back
verbatim. -/
theorem c7_attachment_content_raw_witness :
    (OrderfulAPI.init (PyVal.str "LIVE") (PyVal.str "key")
        |>.get_attachment_content "att1" ⟨200, Option.none, [1, 2, 3]⟩).2.2 =
      Except.ok [1, 2, 3] :=
  c7_attachment_content_raw _ "att1" ⟨200, Option.none, [1, 2, 3]⟩
    (by decide)

/-- C10: generate_label sends the supplied keyword dict as the JSON body
unchanged, so every supplied key (truthy or falsy) is present with exactly
its supplied value. -/
theorem c10_generate_label_body (c : OrderfulAPI) (label_type : String)
    (kwargs : List (String × PyVal)) (resp : Response) :
    ((c.generate_label label_type kwargs resp).2.1.jsonBody = some kwargs) ∧
    (∀ k v, dictGet kwargs k = some v →
      dictGet (((c.generate_label label_type kwargs resp).2.1.jsonBody).getD [])
        k = some v) := by
  constructor
  · rfl
  · intro k v h
    simpa [OrderfulAPI.generate_label] using h

/-- C10 witness: a falsy value (the empty string) supplied to
generate_label is still sent. -/
theorem c10_generate_label_body_witness :
    ((OrderfulAPI.init (PyVal.str "LIVE") (PyVal.str "key")
        |>.generate_label "shipping" [("note", PyVal.str "")]
          ⟨200, some (PyVal.dict []), []⟩).2.1.jsonBody =
      some [("note", PyVal.str "")]) ∧
    dictGet (((OrderfulAPI.init (PyVal.str "LIVE") (PyVal.str "key")
        |>.generate_label "shipping" [("note", PyVal.str "")]
          ⟨200, some (PyVal.dict []), []⟩).2.1.jsonBody).getD [])
      "note" = some (PyVal.str "") := by
  refine ⟨(c10_generate_label_body _ "shipping" _ _).1, ?_⟩
  exact (c10_generate_label_body _ "shipping" [("note", PyVal.str "")]
    ⟨200, some (PyVal.dict []), []⟩).2 "note" (PyVal.str "") rfl

/-- C4: create_transaction issues a POST to /transactions whose JSON body
is exactly the five documented keys (stream taken from the client, sender
and receiver wrapping the ISA IDs), and on a success response returns
exactly the id field of the body. -/
theorem c4_create_transaction (c : OrderfulAPI)
    (orderful_type message sender_isa_id receiver_isa_id : PyVal)
    (resp : Response) :
    ((c.create_transaction orderful_type message sender_isa_id
        receiver_isa_id resp).2.1.method = Method.POST) ∧
    ((c.create_transaction orderful_type message sender_isa_id
        receiver_isa_id resp).2.1.url =
      "https://api.orderful.com/v3/transactions") ∧
    ((c.create_transaction orderful_type message sender_isa_id
        receiver_isa_id resp).2.1.jsonBody = some [
      ("type", PyVal.dict [("name", orderful_type)]),
      ("stream", c.stream),
      ("message", message),
      ("sender", PyVal.dict [("isaId", sender_isa_id)]),
      ("receiver", PyVal.dict [("isaId", receiver_isa_id)])]) ∧
    (∀ (d : List (String × PyVal)) (i : PyVal), resp.status < 400 →
      resp.jsonBody = some (PyVal.dict d) → dictGet d "id" = some i →
      (c.create_transaction orderful_type message sender_isa_id
        receiver_isa_id resp).2.2 = Except.ok i) := by
  refine ⟨rfl, rfl, rfl, ?_⟩
  intro d i h1 h2 h3
  have hns : ¬ (400 ≤ resp.status ∧ resp.status < 600) := by omega
  simp [OrderfulAPI.create_transaction, raiseForStatus, hns, Response.json,
    h2, pyGetItem, h3, Bind.bind, Except.bind]

/-- C4 witness: a concrete call whose 200 response body holds id tx_123
returns exactly that id. -/
theorem c4_create_transaction_witness :
    (OrderfulAPI.init (PyVal.str "LIVE") (PyVal.str "key")
        |>.create_transaction (PyVal.str "850") (PyVal.dict [])
          (PyVal.str "S1") (PyVal.str "R1")
          ⟨200, some (PyVal.dict [("id", PyVal.str "tx_123"),
            ("status", PyVal.str "ok")]), []⟩).2.2 =
      Except.ok (PyVal.str "tx_123") :=
  (c4_create_transaction _ _ _ _ _ _).2.2.2
    [("id", PyVal.str "tx_123"), ("status", PyVal.str "ok")]
    (PyVal.str "tx_123") (by decide) rfl (by simp [dictGet])

/-- C5: on a success response whose body is a dict holding metadata and
data, list_transactions returns the pair (metadata, data). -/
theorem c5_list_transactions_tuple (c : OrderfulAPI)
    (a1 a2 a3 a4 a5 a6 a7 a8 a9 a10 a11 a12 a13 a14 a15 a16 a17 : PyVal)
    (resp : Response) (d : List (String × PyVal)) (m t : PyVal)
    (h1 : resp.status < 400) (h2 : resp.jsonBody = some (PyVal.dict d))
    (h3 : dictGet d "metadata" = some m) (h4 : dictGet d "data" = some t) :
    (c.list_transactions a1 a2 a3 a4 a5 a6 a7 a8 a9 a10 a11 a12 a13 a14
      a15 a16 a17 resp).2.2 = Except.ok (m, t) := by
  have hns : ¬ (400 ≤ resp.status ∧ resp.status < 600) := by omega
  simp [OrderfulAPI.list_transactions, raiseForStatus, hns, Response.json,
    h2, pyGetItem, h3, h4, Bind.bind, Except.bind, Pure.pure, Except.pure]

/-- C5 witness: a concrete 200 response with metadata and data comes back
as that pair. -/
theorem c5_list_transactions_tuple_witness :
    (OrderfulAPI.init (PyVal.str "LIVE") (PyVal.str "key")
        |>.list_transactions PyVal.none PyVal.none PyVal.none PyVal.none
          PyVal.none PyVal.none PyVal.none PyVal.none PyVal.none PyVal.none
          PyVal.none PyVal.none PyVal.none PyVal.none PyVal.none PyVal.none
          PyVal.none
          ⟨200, some (PyVal.dict [
            ("metadata", PyVal.dict [("count", PyVal.int 2)]),
            ("data", PyVal.list [PyVal.int 1, PyVal.int 2])]), []⟩).2.2 =
      Except.ok (PyVal.dict [("count", PyVal.int 2)],
        PyVal.list [PyVal.int 1, PyVal.int 2]) :=
  c5_list_transactions_tuple _ _ _ _ _ _ _ _ _ _ _ _ _ _ _ _ _ _ _
    [("metadata", PyVal.dict [("count", PyVal.int 2)]),
      ("data", PyVal.list [PyVal.int 1, PyVal.int 2])]
    (PyVal.dict [("count", PyVal.int 2)])
    (PyVal.list [PyVal.int 1, PyVal.int 2])
    (by decide) rfl (by simp [dictGet]) (by simp [dictGet])

/-- C9: the field extractions are partial: a 2xx body without id (for
create_transaction) or without metadata or data (for list_transactions)
raises a KeyError naming the missing key, and when the keys are present
the error branch is unreachable and the call returns a value. -/
theorem c9_extraction_partial :
    (∀ (c : OrderfulAPI) (ot msg s r : PyVal) (resp : Response)
      (d : List (String × PyVal)), resp.status < 400 →
      resp.jsonBody = some (PyVal.dict d) → dictGet d "id" = Option.none →
      (c.create_transaction ot msg s r resp).2.2 =
        Except.error (CallError.keyError "id")) ∧
    (∀ (c : OrderfulAPI) (ot msg s r : PyVal) (resp : Response)
      (d : List (String × PyVal)) (i : PyVal), resp.status < 400 →
      resp.jsonBody = some (PyVal.dict d) → dictGet d "id" = some i →
      (c.create_transaction ot msg s r resp).2.2 = Except.ok i) ∧
    (∀ (c : OrderfulAPI)
      (a1 a2 a3 a4 a5 a6 a7 a8 a9 a10 a11 a12 a13 a14 a15 a16 a17 : PyVal)
      (resp : Response) (d : List (String × PyVal)), resp.status < 400 →
      resp.jsonBody = some (PyVal.dict d) →
      dictGet d "metadata" = Option.none →
      (c.list_transactions a1 a2 a3 a4 a5 a6 a7 a8 a9 a10 a11 a12 a13 a14
        a15 a16 a17 resp).2.2 =
        Except.error (CallError.keyError "metadata")) ∧
    (∀ (c : OrderfulAPI)
      (a1 a2 a3 a4 a5 a6 a7 a8 a9 a10 a11 a12 a13 a14 a15 a16 a17 : PyVal)
      (resp : Response) (d : List (String × PyVal)) (m : PyVal),
      resp.status < 400 → resp.jsonBody = some (PyVal.dict d) →
      dictGet d "metadata" = some m → dictGet d "data" = Option.none →
      (c.list_transactions a1 a2 a3 a4 a5 a6 a7 a8 a9 a10 a11 a12 a13 a14
        a15 a16 a17 resp).2.2 =
        Except.error (CallError.keyError "data")) ∧
    (∀ (c : OrderfulAPI)
      (a1 a2 a3 a4 a5 a6 a7 a8 a9 a10 a11 a12 a13 a14 a15 a16 a17 : PyVal)
      (resp : Response) (d : List (String × PyVal)) (m t : PyVal),
      resp.status < 400 → resp.jsonBody = some (PyVal.dict d) →
      dictGet d "metadata" = some m → dictGet d "data" = some t →
      (c.list_transactions a1 a2 a3 a4 a5 a6 a7 a8 a9 a10 a11 a12 a13 a14
        a15 a16 a17 resp).2.2 = Except.ok (m, t)) := by
  refine ⟨?_, ?_, ?_, ?_, ?_⟩
  · intro c ot msg s r resp d h1 h2 h3
    have hns : ¬ (400 ≤ resp.status ∧ resp.status < 600) := by omega
    simp [OrderfulAPI.create_transaction, raiseForStatus, hns,
      Response.json, h2, pyGetItem, h3, Bind.bind, Except.bind]
  · intro c ot msg s r resp d i h1 h2 h3
    have hns : ¬ (400 ≤ resp.status ∧ resp.status < 600) := by omega
    simp [OrderfulAPI.create_transaction, raiseForStatus, hns,
      Response.json, h2, pyGetItem, h3, Bind.bind, Except.bind]
  · intro c a1 a2 a3 a4 a5 a6 a7 a8 a9 a10 a11 a12 a13 a14 a15 a16 a17
      resp d h1 h2 h3
    have hns : ¬ (400 ≤ resp.status ∧ resp.status < 600) := by omega
    simp [OrderfulAPI.list_transactions, raiseForStatus, hns,
      Response.json, h2, pyGetItem, h3, Bind.bind, Except.bind]
  · intro c a1 a2 a3 a4 a5 a6 a7 a8 a9 a10 a11 a12 a13 a14 a15 a16 a17
      resp d m h1 h2 h3 h4
    have hns : ¬ (400 ≤ resp.status ∧ resp.status < 600) := by omega
    simp [OrderfulAPI.list_transactions, raiseForStatus, hns,
      Response.json, h2, pyGetItem, h3, h4, Bind.bind, Except.bind]
  · intro c a1 a2 a3 a4 a5 a6 a7 a8 a9 a10 a11 a12 a13 a14 a15 a16 a17
      resp d m t h1 h2 h3 h4
    have hns : ¬ (400 ≤ resp.status ∧ resp.status < 600) := by omega
    simp [OrderfulAPI.list_transactions, raiseForStatus, hns,
      Response.json, h2, pyGetItem, h3, h4, Bind.bind, Except.bind,
      Pure.pure, Except.pure]

/-- C9 witness: concrete 200 responses missing id, missing metadata,
missing data, and holding every key, each behaving as stated. -/
theorem c9_extraction_partial_witness :
    ((OrderfulAPI.init (PyVal.str "LIVE") (PyVal.str "key")
        |>.create_transaction (PyVal.str "850") (PyVal.dict [])
          (PyVal.str "S1") (PyVal.str "R1")
          ⟨200, some (PyVal.dict [("status", PyVal.str "ok")]), []⟩).2.2 =
      Except.error (CallError.keyError "id")) ∧
    ((OrderfulAPI.init (PyVal.str "LIVE") (PyVal.str "key")
        |>.list_transactions PyVal.none PyVal.none PyVal.none PyVal.none
          PyVal.none PyVal.none PyVal.none PyVal.none PyVal.none PyVal.none
          PyVal.none PyVal.none PyVal.none PyVal.none PyVal.none PyVal.none
          PyVal.none
          ⟨200, some (PyVal.dict [("data", PyVal.list [])]), []⟩).2.2 =
      Except.error (CallError.keyError "metadata")) ∧
    ((OrderfulAPI.init (PyVal.str "LIVE") (PyVal.str "key")
        |>.list_transactions PyVal.none PyVal.none PyVal.none PyVal.none
          PyVal.none PyVal.none PyVal.none PyVal.none PyVal.none PyVal.none
          PyVal.none PyVal.none PyVal.none PyVal.none PyVal.none PyVal.none
          PyVal.none
          ⟨200, some (PyVal.dict [("metadata", PyVal.dict [])]), []⟩).2.2 =
      Except.error (CallError.keyError "data")) ∧
    ((OrderfulAPI.init (PyVal.str "LIVE") (PyVal.str "key")
        |>.create_transaction (PyVal.str "850") (PyVal.dict [])
          (PyVal.str "S1") (PyVal.str "R1")
          ⟨200, some (PyVal.dict [("id", PyVal.str "tx_9")]), []⟩).2.2 =
      Except.ok (PyVal.str "tx_9")) := by
  refine ⟨?_, ?_, ?_, ?_⟩
  · exact c9_extraction_partial.1 _ _ _ _ _ _
      [("status", PyVal.str "ok")] (by decide) rfl (by simp [dictGet])
  · exact c9_extraction_partial.2.2.1 _ _ _ _ _ _ _ _ _ _ _ _ _ _ _ _ _ _ _
      [("data", PyVal.list [])] (by decide) rfl (by simp [dictGet])
  · exact c9_extraction_partial.2.2.2.1 _ _ _ _ _ _ _ _ _ _ _ _ _ _ _ _ _
      _ _ [("metadata", PyVal.dict [])] (PyVal.dict [])
      (by decide) rfl (by simp [dictGet]) (by simp [dictGet])
  · exact c9_extraction_partial.2.1 _ _ _ _ _ _
      [("id", PyVal.str "tx_9")] (PyVal.str "tx_9")
      (by decide) rfl (by simp [dictGet])

/-- C2: every operation raises on a 4xx/5xx status, surfacing the
underlying HTTP response, regardless of the response body (so before any
body parsing); no operation swallows the failure. -/
theorem c2_http_failure_raises :
    (∀ (c : OrderfulAPI) (b : String) (l : PyVal) (resp : Response),
      400 ≤ resp.status → resp.status < 600 →
      (c.get_transactions_from_poller_bucket b l resp).2.2 =
        Except.error (CallError.httpError resp)) ∧
    (∀ (c : OrderfulAPI) (b : String) (x1 x2 x3 x4 : PyVal)
      (resp : Response), 400 ≤ resp.status → resp.status < 600 →
      (c.list_relationships b x1 x2 x3 x4 resp).2.2 =
        Except.error (CallError.httpError resp)) ∧
    (∀ (c : OrderfulAPI) (resp : Response),
      400 ≤ resp.status → resp.status < 600 →
      (c.get_organization_details resp).2.2 =
        Except.error (CallError.httpError resp)) ∧
    (∀ (c : OrderfulAPI) (o dst : PyVal) (resp : Response),
      400 ≤ resp.status → resp.status < 600 →
      (c.convert_data o dst resp).2.2 =
        Except.error (CallError.httpError resp)) ∧
    (∀ (c : OrderfulAPI) (ot msg s r : PyVal) (resp : Response),
      400 ≤ resp.status → resp.status < 600 →
      (c.create_transaction ot msg s r resp).2.2 =
        Except.error (CallError.httpError resp)) ∧
    (∀ (c : OrderfulAPI)
      (a1 a2 a3 a4 a5 a6 a7 a8 a9 a10 a11 a12 a13 a14 a15 a16 a17 : PyVal)
      (resp : Response), 400 ≤ resp.status → resp.status < 600 →
      (c.list_transactions a1 a2 a3 a4 a5 a6 a7 a8 a9 a10 a11 a12 a13 a14
        a15 a16 a17 resp).2.2 = Except.error (CallError.httpError resp)) ∧
    (∀ (c : OrderfulAPI) (tid : String) (im : PyVal) (resp : Response),
      400 ≤ resp.status → resp.status < 600 →
      (c.get_transaction tid im resp).2.2 =
        Except.error (CallError.httpError resp)) ∧
    (∀ (c : OrderfulAPI) (tid : String) (resp : Response),
      400 ≤ resp.status → resp.status < 600 →
      (c.get_transaction_message tid resp).2.2 =
        Except.error (CallError.httpError resp)) ∧
    (∀ (c : OrderfulAPI) (tid : String) (st er : PyVal) (resp : Response),
      400 ≤ resp.status → resp.status < 600 →
      (c.create_acknowledgment tid st er resp).2.2 =
        Except.error (CallError.httpError resp)) ∧
    (∀ (c : OrderfulAPI) (tid : String) (resp : Response),
      400 ≤ resp.status → resp.status < 600 →
      (c.get_acknowledgment tid resp).2.2 =
        Except.error (CallError.httpError resp)) ∧
    (∀ (c : OrderfulAPI) (aid : String) (resp : Response),
      400 ≤ resp.status → resp.status < 600 →
      (c.get_attachment aid resp).2.2 =
        Except.error (CallError.httpError resp)) ∧
    (∀ (c : OrderfulAPI) (aid : String) (resp : Response),
      400 ≤ resp.status → resp.status < 600 →
      (c.get_attachment_content aid resp).2.2 =
        Except.error (CallError.httpError resp)) ∧
    (∀ (c : OrderfulAPI) (did : String) (note : PyVal) (resp : Response),
      400 ≤ resp.status → resp.status < 600 →
      (c.approve_delivery did note resp).2.2 =
        Except.error (CallError.httpError resp)) ∧
    (∀ (c : OrderfulAPI) (did : String) (note : PyVal) (resp : Response),
      400 ≤ resp.status → resp.status < 600 →
      (c.fail_delivery did note resp).2.2 =
        Except.error (CallError.httpError resp)) ∧
    (∀ (c : OrderfulAPI) (did : String) (resp : Response),
      400 ≤ resp.status → resp.status < 600 →
      (c.get_delivery did resp).2.2 =
        Except.error (CallError.httpError resp)) ∧
    (∀ (c : OrderfulAPI) (lt : String) (kwargs : List (String × PyVal))
      (resp : Response), 400 ≤ resp.status → resp.status < 600 →
      (c.generate_label lt kwargs resp).2.2 =
        Except.error (CallError.httpError resp)) := by
  refine ⟨?_, ?_, ?_, ?_, ?_, ?_, ?_, ?_, ?_, ?_, ?_, ?_, ?_, ?_, ?_,
    ?_⟩ <;>
    (intros; rename_i h1 h2;
      simp [OrderfulAPI.get_transactions_from_poller_bucket,
        OrderfulAPI.list_relationships, OrderfulAPI.get_organization_details,
        OrderfulAPI.convert_data, OrderfulAPI.create_transaction,
        OrderfulAPI.list_transactions, OrderfulAPI.get_transaction,
        OrderfulAPI.get_transaction_message,
        OrderfulAPI.create_acknowledgment, OrderfulAPI.get_acknowledgment,
        OrderfulAPI.get_attachment, OrderfulAPI.get_attachment_content,
        OrderfulAPI.approve_delivery, OrderfulAPI.fail_delivery,
        OrderfulAPI.get_delivery, OrderfulAPI.generate_label,
        raiseForStatus, h1, h2, Bind.bind, Except.bind])

/-- C2 witness: a concrete 404 response makes a representative set of
calls raise the HTTPError carrying that response. -/
theorem c2_http_failure_raises_witness :
    ((OrderfulAPI.init (PyVal.str "LIVE") (PyVal.str "key")
        |>.get_transactions_from_poller_bucket "b1" PyVal.none
          ⟨404, some (PyVal.dict []), []⟩).2.2 =
      Except.error (CallError.httpError ⟨404, some (PyVal.dict []), []⟩)) ∧
    ((OrderfulAPI.init (PyVal.str "LIVE") (PyVal.str "key")
        |>.create_transaction (PyVal.str "850") (PyVal.dict [])
          (PyVal.str "S1") (PyVal.str "R1")
          ⟨500, Option.none, []⟩).2.2 =
      Except.error (CallError.httpError ⟨500, Option.none, []⟩)) ∧
    ((OrderfulAPI.init (PyVal.str "LIVE") (PyVal.str "key")
        |>.list_transactions PyVal.none PyVal.none PyVal.none PyVal.none
          PyVal.none PyVal.none PyVal.none PyVal.none PyVal.none PyVal.none
          PyVal.none PyVal.none PyVal.none PyVal.none PyVal.none PyVal.none
          PyVal.none ⟨404, Option.none, []⟩).2.2 =
      Except.error (CallError.httpError ⟨404, Option.none, []⟩)) ∧
    ((OrderfulAPI.init (PyVal.str "LIVE") (PyVal.str "key")
        |>.generate_label "shipping" [] ⟨418, Option.none, []⟩).2.2 =
      Except.error (CallError.httpError ⟨418, Option.none, []⟩)) := by
  refine ⟨?_, ?_, ?_, ?_⟩
  · exact c2_http_failure_raises.1 _ "b1" PyVal.none _
      (by decide) (by decide)
  · exact c2_http_failure_raises.2.2.2.2.1 _ _ _ _ _ _
      (by decide) (by decide)
  · exact c2_http_failure_raises.2.2.2.2.2.1 _ _ _ _ _ _ _ _ _ _ _ _ _ _ _
      _ _ _ _ (by decide) (by decide)
  · exact (c2_http_failure_raises.2.2.2.2.2.2.2.2.2.2.2.2.2.2.2) _
      "shipping" [] _ (by decide) (by decide)

/-- C8: every operation returns the client state it was given: the stream,
api key and header set fixed at construction are never modified and no
other state is carried between calls. -/
theorem c8_client_state_unchanged :
    (∀ (c : OrderfulAPI) (b : String) (l : PyVal) (resp : Response),
      (c.get_transactions_from_poller_bucket b l resp).1 = c) ∧
    (∀ (c : OrderfulAPI) (b : String) (x1 x2 x3 x4 : PyVal)
      (resp : Response), (c.list_relationships b x1 x2 x3 x4 resp).1 = c) ∧
    (∀ (c : OrderfulAPI) (resp : Response),
      (c.get_organization_details resp).1 = c) ∧
    (∀ (c : OrderfulAPI) (o dst : PyVal) (resp : Response),
      (c.convert_data o dst resp).1 = c) ∧
    (∀ (c : OrderfulAPI) (ot msg s r : PyVal) (resp : Response),
      (c.create_transaction ot msg s r resp).1 = c) ∧
    (∀ (c : OrderfulAPI)
      (a1 a2 a3 a4 a5 a6 a7 a8 a9 a10 a11 a12 a13 a14 a15 a16 a17 : PyVal)
      (resp : Response),
      (c.list_transactions a1 a2 a3 a4 a5 a6 a7 a8 a9 a10 a11 a12 a13 a14
        a15 a16 a17 resp).1 = c) ∧
    (∀ (c : OrderfulAPI) (tid : String) (im : PyVal) (resp : Response),
      (c.get_transaction tid im resp).1 = c) ∧
    (∀ (c : OrderfulAPI) (tid : String) (resp : Response),
      (c.get_transaction_message tid resp).1 = c) ∧
    (∀ (c : OrderfulAPI) (tid : String) (st er : PyVal) (resp : Response),
      (c.create_acknowledgment tid st er resp).1 = c) ∧
    (∀ (c : OrderfulAPI) (tid : String) (resp : Response),
      (c.get_acknowledgment tid resp).1 = c) ∧
    (∀ (c : OrderfulAPI) (aid : String) (resp : Response),
      (c.get_attachment aid resp).1 = c) ∧
    (∀ (c : OrderfulAPI) (aid : String) (resp : Response),
      (c.get_attachment_content aid resp).1 = c) ∧
    (∀ (c : OrderfulAPI) (did : String) (note : PyVal) (resp : Response),
      (c.approve_delivery did note resp).1 = c) ∧
    (∀ (c : OrderfulAPI) (did : String) (note : PyVal) (resp : Response),
      (c.fail_delivery did note resp).1 = c) ∧
    (∀ (c : OrderfulAPI) (did : String) (resp : Response),
      (c.get_delivery did resp).1 = c) ∧
    (∀ (c : OrderfulAPI) (lt : String) (kwargs : List (String × PyVal))
      (resp : Response), (c.generate_label lt kwargs resp).1 = c) := by
  refine ⟨?_, ?_, ?_, ?_, ?_, ?_, ?_, ?_, ?_, ?_, ?_, ?_, ?_, ?_, ?_,
    ?_⟩ <;> (intros; rfl)

/-- C1 counterexample: get_transaction with the truthy include_message
value True sends the fixed pair expand=message; the query holds no
include_message key and no key carrying the supplied value True, so a
truthy optional argument is not always sent as its own value. -/
theorem c1_counterexample :
    truthy (PyVal.bool true) = true ∧
    ((OrderfulAPI.init (PyVal.str "LIVE") (PyVal.str "key")
        |>.get_transaction "t1" (PyVal.bool true)
          ⟨200, some (PyVal.dict []), []⟩).2.1.params =
      [("expand", PyVal.str "message")]) ∧
    dictGet ((OrderfulAPI.init (PyVal.str "LIVE") (PyVal.str "key")
        |>.get_transaction "t1" (PyVal.bool true)
          ⟨200, some (PyVal.dict []), []⟩).2.1.params)
      "include_message" = Option.none ∧
    PyVal.beq (PyVal.str "message") (PyVal.bool true) = false :=
  ⟨rfl, rfl, rfl, rfl⟩

/-- C1 (amended): for every operation with optional arguments, a falsy
argument leaves its key absent and a truthy argument puts the documented
key into the query params or JSON body carrying exactly the supplied
value — except get_transaction, whose truthy include_message yields the
fixed pair expand=message instead of the supplied value. -/
theorem c1_amended_optional_params :
    (∀ (c : OrderfulAPI) (b : String) (limit : PyVal) (resp : Response),
      dictGet (c.get_transactions_from_poller_bucket b limit resp).2.1.params
        "limit" = if truthy limit then some limit else Option.none) ∧
    (∀ (c : OrderfulAPI) (b : String) (x1 x2 x3 x4 : PyVal)
      (resp : Response),
      dictGet (c.list_relationships b x1 x2 x3 x4 resp).2.1.params
        "auto_send" = if truthy x1 then some x1 else Option.none) ∧
    (∀ (c : OrderfulAPI) (b : String) (x1 x2 x3 x4 : PyVal)
      (resp : Response),
      dictGet (c.list_relationships b x1 x2 x3 x4 resp).2.1.params
        "limit" = if truthy x2 then some x2 else Option.none) ∧
    (∀ (c : OrderfulAPI) (b : String) (x1 x2 x3 x4 : PyVal)
      (resp : Response),
      dictGet (c.list_relationships b x1 x2 x3 x4 resp).2.1.params
        "prev_cursor" = if truthy x3 then some x3 else Option.none) ∧
    (∀ (c : OrderfulAPI) (b : String) (x1 x2 x3 x4 : PyVal)
      (resp : Response),
      dictGet (c.list_relationships b x1 x2 x3 x4 resp).2.1.params
        "next_cursor" = if truthy x4 then some x4 else Option.none) ∧
    (∀ (c : OrderfulAPI)
      (a1 a2 a3 a4 a5 a6 a7 a8 a9 a10 a11 a12 a13 a14 a15 a16 a17 : PyVal)
      (resp : Response),
      (c.list_transactions a1 a2 a3 a4 a5 a6 a7 a8 a9 a10 a11 a12 a13 a14
        a15 a16 a17 resp).2.1.params =
        list_transactions_params a1 a2 a3 a4 a5 a6 a7 a8 a9 a10 a11 a12
          a13 a14 a15 a16 a17) ∧
    (∀ (a1 a2 a3 a4 a5 a6 a7 a8 a9 a10 a11 a12 a13 a14 a15 a16 a17 : PyVal),
      dictGet (list_transactions_params a1 a2 a3 a4 a5 a6 a7 a8 a9 a10 a11
          a12 a13 a14 a15 a16 a17) "prevCursor" =
        if truthy a1 then some a1 else Option.none) ∧
    (∀ (a1 a2 a3 a4 a5 a6 a7 a8 a9 a10 a11 a12 a13 a14 a15 a16 a17 : PyVal),
      dictGet (list_transactions_params a1 a2 a3 a4 a5 a6 a7 a8 a9 a10 a11
          a12 a13 a14 a15 a16 a17) "nextCursor" =
        if truthy a2 then some a2 else Option.none) ∧
    (∀ (a1 a2 a3 a4 a5 a6 a7 a8 a9 a10 a11 a12 a13 a14 a15 a16 a17 : PyVal),
      dictGet (list_transactions_params a1 a2 a3 a4 a5 a6 a7 a8 a9 a10 a11
          a12 a13 a14 a15 a16 a17) "createdAt" =
        if truthy a3 then some a3 else Option.none) ∧
    (∀ (a1 a2 a3 a4 a5 a6 a7 a8 a9 a10 a11 a12 a13 a14 a15 a16 a17 : PyVal),
      dictGet (list_transactions_params a1 a2 a3 a4 a5 a6 a7 a8 a9 a10 a11
          a12 a13 a14 a15 a16 a17) "businessNumbers" =
        if truthy a4 then some a4 else Option.none) ∧
    (∀ (a1 a2 a3 a4 a5 a6 a7 a8 a9 a10 a11 a12 a13 a14 a15 a16 a17 : PyVal),
      dictGet (list_transactions_params a1 a2 a3 a4 a5 a6 a7 a8 a9 a10 a11
          a12 a13 a14 a15 a16 a17) "transactionType" =
        if truthy a5 then some a5 else Option.none) ∧
    (∀ (a1 a2 a3 a4 a5 a6 a7 a8 a9 a10 a11 a12 a13 a14 a15 a16 a17 : PyVal),
      dictGet (list_transactions_params a1 a2 a3 a4 a5 a6 a7 a8 a9 a10 a11
          a12 a13 a14 a15 a16 a17) "validationStatus" =
        if truthy a6 then some a6 else Option.none) ∧
    (∀ (a1 a2 a3 a4 a5 a6 a7 a8 a9 a10 a11 a12 a13 a14 a15 a16 a17 : PyVal),
      dictGet (list_transactions_params a1 a2 a3 a4 a5 a6 a7 a8 a9 a10 a11
          a12 a13 a14 a15 a16 a17) "deliveryStatus" =
        if truthy a7 then some a7 else Option.none) ∧
    (∀ (a1 a2 a3 a4 a5 a6 a7 a8 a9 a10 a11 a12 a13 a14 a15 a16 a17 : PyVal),
      dictGet (list_transactions_params a1 a2 a3 a4 a5 a6 a7 a8 a9 a10 a11
          a12 a13 a14 a15 a16 a17) "acknowledgmentStatus" =
        if truthy a8 then some a8 else Option.none) ∧
    (∀ (a1 a2 a3 a4 a5 a6 a7 a8 a9 a10 a11 a12 a13 a14 a15 a16 a17 : PyVal),
      dictGet (list_transactions_params a1 a2 a3 a4 a5 a6 a7 a8 a9 a10 a11
          a12 a13 a14 a15 a16 a17) "senderIsaId" =
        if truthy a9 then some a9 else Option.none) ∧
    (∀ (a1 a2 a3 a4 a5 a6 a7 a8 a9 a10 a11 a12 a13 a14 a15 a16 a17 : PyVal),
      dictGet (list_transactions_params a1 a2 a3 a4 a5 a6 a7 a8 a9 a10 a11
          a12 a13 a14 a15 a16 a17) "receiverIsaId" =
        if truthy a10 then some a10 else Option.none) ∧
    (∀ (a1 a2 a3 a4 a5 a6 a7 a8 a9 a10 a11 a12 a13 a14 a15 a16 a17 : PyVal),
      dictGet (list_transactions_params a1 a2 a3 a4 a5 a6 a7 a8 a9 a10 a11
          a12 a13 a14 a15 a16 a17) "referenceIdentifier" =
        if truthy a11 then some a11 else Option.none) ∧
    (∀ (a1 a2 a3 a4 a5 a6 a7 a8 a9 a10 a11 a12 a13 a14 a15 a16 a17 : PyVal),
      dictGet (list_transactions_params a1 a2 a3 a4 a5 a6 a7 a8 a9 a10 a11
          a12 a13 a14 a15 a16 a17) "senderInterchangeReferenceIdentifier" =
        if truthy a12 then some a12 else Option.none) ∧
    (∀ (a1 a2 a3 a4 a5 a6 a7 a8 a9 a10 a11 a12 a13 a14 a15 a16 a17 : PyVal),
      dictGet (list_transactions_params a1 a2 a3 a4 a5 a6 a7 a8 a9 a10 a11
          a12 a13 a14 a15 a16 a17) "senderGroupReferenceIdentifier" =
        if truthy a13 then some a13 else Option.none) ∧
    (∀ (a1 a2 a3 a4 a5 a6 a7 a8 a9 a10 a11 a12 a13 a14 a15 a16 a17 : PyVal),
      dictGet (list_transactions_params a1 a2 a3 a4 a5 a6 a7 a8 a9 a10 a11
          a12 a13 a14 a15 a16 a17) "senderTransactionReferenceIdentifier" =
        if truthy a14 then some a14 else Option.none) ∧
    (∀ (a1 a2 a3 a4 a5 a6 a7 a8 a9 a10 a11 a12 a13 a14 a15 a16 a17 : PyVal),
      dictGet (list_transactions_params a1 a2 a3 a4 a5 a6 a7 a8 a9 a10 a11
          a12 a13 a14 a15 a16 a17)
          "receiverInterchangeReferenceIdentifier" =
        if truthy a15 then some a15 else Option.none) ∧
    (∀ (a1 a2 a3 a4 a5 a6 a7 a8 a9 a10 a11 a12 a13 a14 a15 a16 a17 : PyVal),
      dictGet (list_transactions_params a1 a2 a3 a4 a5 a6 a7 a8 a9 a10 a11
          a12 a13 a14 a15 a16 a17) "receiverGroupReferenceIdentifier" =
        if truthy a16 then some a16 else Option.none) ∧
    (∀ (a1 a2 a3 a4 a5 a6 a7 a8 a9 a10 a11 a12 a13 a14 a15 a16 a17 : PyVal),
      dictGet (list_transactions_params a1 a2 a3 a4 a5 a6 a7 a8 a9 a10 a11
          a12 a13 a14 a15 a16 a17)
          "receiverTransactionReferenceIdentifier" =
        if truthy a17 then some a17 else Option.none) ∧
    (∀ (c : OrderfulAPI) (tid : String) (im : PyVal) (resp : Response),
      dictGet (c.get_transaction tid im resp).2.1.params "expand" =
        if truthy im then some (PyVal.str "message") else Option.none) ∧
    (∀ (c : OrderfulAPI) (tid : String) (im : PyVal) (resp : Response),
      dictGet (c.get_transaction tid im resp).2.1.params
        "include_message" = Option.none) ∧
    (∀ (c : OrderfulAPI) (tid : String) (st er : PyVal) (resp : Response),
      dictGet (((c.create_acknowledgment tid st er resp).2.1.jsonBody).getD
        []) "errors" = if truthy er then some er else Option.none) ∧
    (∀ (c : OrderfulAPI) (did : String) (note : PyVal) (resp : Response),
      dictGet (((c.approve_delivery did note resp).2.1.jsonBody).getD [])
        "note" = if truthy note then some note else Option.none) ∧
    (∀ (c : OrderfulAPI) (did : String) (note : PyVal) (resp : Response),
      dictGet (((c.fail_delivery did note resp).2.1.jsonBody).getD [])
        "note" = if truthy note then some note else Option.none) := by
  refine ⟨?_, ?_, ?_, ?_, ?_, ?_, ?_, ?_, ?_, ?_, ?_, ?_, ?_, ?_, ?_, ?_,
    ?_, ?_, ?_, ?_, ?_, ?_, ?_, ?_, ?_, ?_, ?_, ?_⟩ <;> intros <;>
    first
    | rfl
    | simp [OrderfulAPI.get_transactions_from_poller_bucket,
        OrderfulAPI.list_relationships, OrderfulAPI.create_acknowledgment,
        OrderfulAPI.approve_delivery, OrderfulAPI.fail_delivery,
        list_transactions_params, dictGet_optUpdate, dictGet]
    | (rename_i im _; cases h : truthy im <;>
        simp [OrderfulAPI.get_transaction, h, dictGet_dictUpdate, dictGet])

/-- C3 counterexample: list_transactions has 17 optional filter
arguments, not 16 — with every argument truthy the outgoing query holds
17 keys. -/
theorem c3_counterexample :
    (list_transactions_params (PyVal.int 1) (PyVal.int 2) (PyVal.int 3)
        (PyVal.int 4) (PyVal.int 5) (PyVal.int 6) (PyVal.int 7)
        (PyVal.int 8) (PyVal.int 9) (PyVal.int 10) (PyVal.int 11)
        (PyVal.int 12) (PyVal.int 13) (PyVal.int 14) (PyVal.int 15)
        (PyVal.int 16) (PyVal.int 17)).length = 17 ∧
    ((list_transactions_params (PyVal.int 1) (PyVal.int 2) (PyVal.int 3)
        (PyVal.int 4) (PyVal.int 5) (PyVal.int 6) (PyVal.int 7)
        (PyVal.int 8) (PyVal.int 9) (PyVal.int 10) (PyVal.int 11)
        (PyVal.int 12) (PyVal.int 13) (PyVal.int 14) (PyVal.int 15)
        (PyVal.int 16) (PyVal.int 17)).length == 16) = false :=
  ⟨rfl, rfl⟩

/-- C3 (amended): list_transactions maps its 17 optional snake_case
filter arguments 1:1 to camelCase query keys: each key is present exactly
when its argument is truthy, carrying exactly that argument. -/
theorem c3_camelcase_mapping
    (a1 a2 a3 a4 a5 a6 a7 a8 a9 a10 a11 a12 a13 a14 a15 a16 a17 : PyVal)
    (c : OrderfulAPI) (resp : Response) :
    ((c.list_transactions a1 a2 a3 a4 a5 a6 a7 a8 a9 a10 a11 a12 a13 a14
        a15 a16 a17 resp).2.1.params =
      list_transactions_params a1 a2 a3 a4 a5 a6 a7 a8 a9 a10 a11 a12 a13
        a14 a15 a16 a17) ∧
    (dictGet (list_transactions_params a1 a2 a3 a4 a5 a6 a7 a8 a9 a10 a11
        a12 a13 a14 a15 a16 a17) "prevCursor" =
      if truthy a1 then some a1 else Option.none) ∧
    (dictGet (list_transactions_params a1 a2 a3 a4 a5 a6 a7 a8 a9 a10 a11
        a12 a13 a14 a15 a16 a17) "nextCursor" =
      if truthy a2 then some a2 else Option.none) ∧
    (dictGet (list_transactions_params a1 a2 a3 a4 a5 a6 a7 a8 a9 a10 a11
        a12 a13 a14 a15 a16 a17) "createdAt" =
      if truthy a3 then some a3 else Option.none) ∧
    (dictGet (list_transactions_params a1 a2 a3 a4 a5 a6 a7 a8 a9 a10 a11
        a12 a13 a14 a15 a16 a17) "businessNumbers" =
      if truthy a4 then some a4 else Option.none) ∧
    (dictGet (list_transactions_params a1 a2 a3 a4 a5 a6 a7 a8 a9 a10 a11
        a12 a13 a14 a15 a16 a17) "transactionType" =
      if truthy a5 then some a5 else Option.none) ∧
    (dictGet (list_transactions_params a1 a2 a3 a4 a5 a6 a7 a8 a9 a10 a11
        a12 a13 a14 a15 a16 a17) "validationStatus" =
      if truthy a6 then some a6 else Option.none) ∧
    (dictGet (list_transactions_params a1 a2 a3 a4 a5 a6 a7 a8 a9 a10 a11
        a12 a13 a14 a15 a16 a17) "deliveryStatus" =
      if truthy a7 then some a7 else Option.none) ∧
    (dictGet (list_transactions_params a1 a2 a3 a4 a5 a6 a7 a8 a9 a10 a11
        a12 a13 a14 a15 a16 a17) "acknowledgmentStatus" =
      if truthy a8 then some a8 else Option.none) ∧
    (dictGet (list_transactions_params a1 a2 a3 a4 a5 a6 a7 a8 a9 a10 a11
        a12 a13 a14 a15 a16 a17) "senderIsaId" =
      if truthy a9 then some a9 else Option.none) ∧
    (dictGet (list_transactions_params a1 a2 a3 a4 a5 a6 a7 a8 a9 a10 a11
        a12 a13 a14 a15 a16 a17) "receiverIsaId" =
      if truthy a10 then some a10 else Option.none) ∧
    (dictGet (list_transactions_params a1 a2 a3 a4 a5 a6 a7 a8 a9 a10 a11
        a12 a13 a14 a15 a16 a17) "referenceIdentifier" =
      if truthy a11 then some a11 else Option.none) ∧
    (dictGet (list_transactions_params a1 a2 a3 a4 a5 a6 a7 a8 a9 a10 a11
        a12 a13 a14 a15 a16 a17) "senderInterchangeReferenceIdentifier" =
      if truthy a12 then some a12 else Option.none) ∧
    (dictGet (list_transactions_params a1 a2 a3 a4 a5 a6 a7 a8 a9 a10 a11
        a12 a13 a14 a15 a16 a17) "senderGroupReferenceIdentifier" =
      if truthy a13 then some a13 else Option.none) ∧
    (dictGet (list_transactions_params a1 a2 a3 a4 a5 a6 a7 a8 a9 a10 a11
        a12 a13 a14 a15 a16 a17) "senderTransactionReferenceIdentifier" =
      if truthy a14 then some a14 else Option.none) ∧
    (dictGet (list_transactions_params a1 a2 a3 a4 a5 a6 a7 a8 a9 a10 a11
        a12 a13 a14 a15 a16 a17) "receiverInterchangeReferenceIdentifier" =
      if truthy a15 then some a15 else Option.none) ∧
    (dictGet (list_transactions_params a1 a2 a3 a4 a5 a6 a7 a8 a9 a10 a11
        a12 a13 a14 a15 a16 a17) "receiverGroupReferenceIdentifier" =
      if truthy a16 then some a16 else Option.none) ∧
    (dictGet (list_transactions_params a1 a2 a3 a4 a5 a6 a7 a8 a9 a10 a11
        a12 a13 a14 a15 a16 a17)
        "receiverTransactionReferenceIdentifier" =
      if truthy a17 then some a17 else Option.none) := by
  refine ⟨rfl, ?_, ?_, ?_, ?_, ?_, ?_, ?_, ?_, ?_, ?_, ?_, ?_, ?_, ?_,
    ?_, ?_, ?_⟩ <;>
    simp [list_transactions_params, dictGet_optUpdate, dictGet]
